import Mathlib

/-!
Verification of the Hymod single-timestep rainfall-runoff kernel
(`src/models/hymod/include/Hymod.h`).

Modelling conventions:
* C `double` values are modelled as exact rationals `ℚ` (the claims are about
  the algebraic structure of the computation, not about rounding).
* The caller-owned cascade-storage buffers (`hymod_state::Sr`, a raw
  `double*`) are modelled by an explicit memory `Mem : ℕ → ℚ`; a state's `Sr`
  field is the base address of its buffer.  `run` therefore takes the memory
  as an input and returns the updated memory, so aliasing and frame questions
  are expressible.
* `std::pow` on doubles is modelled by an arbitrary parameter
  `rpow : ℚ → ℚ → ℚ`; theorems quantify over it, and concrete instances
  substitute an exact power where the exponent is a natural number (there
  real `pow` agrees with the iterated product).
* `params.n` is a `double` in the source but is only ever used as a count
  (the `resize` call truncates it to an unsigned integer, and the loops run
  over that many indices); it is modelled as `ℕ`.
-/

namespace Hymod

/-- Memory holding the caller-owned reservoir-storage buffers: a total map
from addresses to stored values. -/
def Mem : Type := ℕ → ℚ

/-- Modelled from the spec: `LinearReservoir.hpp` is not among the supplied
sources.  The spec (sections 2 and 6) treats the linear reservoir as an opaque
collaborator constructible from
`(initial_storage, max_storage, decay_coefficient, sub_step_duration)`,
with an operation `response(inflow, dt) → outflow` that mutates the internal
storage, and a storage readback `get_storage`.  We model the constructed
object as a record of its four constructor arguments; the `response`
operation itself stays abstract (a parameter `Resp` of the kernel). -/
structure LinearReservoir where
  storage : ℚ
  max_storage : ℚ
  K : ℚ
  t : ℚ
deriving DecidableEq

/-- Modelled from the spec: the abstract type of the opaque
`LinearReservoir::response(inflow, dt)` operation — it consumes the current
reservoir, the inflow and the timestep, and yields the outflow together with
the reservoir holding its updated internal storage. -/
def Resp : Type := LinearReservoir → ℚ → ℚ → ℚ × LinearReservoir

/-- Storage readback of a linear reservoir (`get_storage()` in the source). -/
def LinearReservoir.get_storage (r : LinearReservoir) : ℚ := r.storage

/-- `hymod_params`: static parameters of the hymod model. -/
structure hymod_params where
  max_storage : ℚ
  a : ℚ
  b : ℚ
  Ks : ℚ
  Kq : ℚ
  n : ℕ
deriving DecidableEq

/-- `hymod_state`: model state.  `Sr` is the base address of the
caller-owned buffer of cascade reservoir storages (a `double*` in the
source). -/
structure hymod_state where
  storage : ℚ
  groundwater_storage : ℚ
  Sr : ℕ
deriving DecidableEq

/-- `hymod_fluxes`: the fluxes produced by one timestep. -/
structure hymod_fluxes where
  slow_flow : ℚ
  runnoff : ℚ
  et_loss : ℚ
deriving DecidableEq

/-- `HyModErrorCodes::NO_ERROR`. -/
def NO_ERROR : ℤ := 0

/-- `HyModErrorCodes::MASS_BALANCE_ERROR`. -/
def MASS_BALANCE_ERROR : ℤ := 100

/-- `hymod_kernel::calc_et`: stub evapotranspiration function; the opaque
`void*` parameter payload is modelled as `Unit`.  Returns `0.0`
unconditionally, exactly as the source. -/
def calc_et (soil_m : ℚ) (et_params : Unit) : ℚ := 0

/-- Write a list of values to consecutive addresses starting at `addr`:
the memory effect of the loop `new_state.Sr[i] = nash_cascade[i].get_storage()`
for `i = 0 .. n-1`. -/
def writeList (mem : Mem) (addr : ℕ) : List ℚ → Mem
  | [] => mem
  | v :: vs => writeList (fun x => if x = addr then v else mem x) (addr + 1) vs

/-- The initial-mass accumulation of `hymod_kernel::mass_check`:
`current_state.storage + current_state.groundwater_storage` plus the
current-state reservoir storages `Sr[0..n-1]`, plus `input_flux`. -/
def inital_mass (params : hymod_params) (current_state : hymod_state)
    (input_flux : ℚ) (mem : Mem) : ℚ :=
  current_state.storage + current_state.groundwater_storage
    + (((List.range params.n).map fun i => mem (current_state.Sr + i)).sum)
    + input_flux

/-- The final-mass accumulation of `hymod_kernel::mass_check`:
`next_state.storage + next_state.groundwater_storage` plus the next-state
reservoir storages, plus `et_loss + runnoff + slow_flow`. -/
def final_mass (params : hymod_params) (next_state : hymod_state)
    (calculated_fluxes : hymod_fluxes) (mem : Mem) : ℚ :=
  next_state.storage + next_state.groundwater_storage
    + (((List.range params.n).map fun i => mem (next_state.Sr + i)).sum)
    + (calculated_fluxes.et_loss + calculated_fluxes.runnoff
        + calculated_fluxes.slow_flow)

/-- `hymod_kernel::mass_check`.  Returns `MASS_BALANCE_ERROR` when
`inital_mass - final_mass > 0.000001`, else `NO_ERROR`.  The two reservoir
sums read through the memory, as the source reads through the `Sr`
pointers. -/
def mass_check (params : hymod_params) (current_state : hymod_state)
    (input_flux : ℚ) (next_state : hymod_state)
    (calculated_fluxes : hymod_fluxes) (mem : Mem) : ℤ :=
  if inital_mass params current_state input_flux mem
      - final_mass params next_state calculated_fluxes mem > 1 / 1000000
  then MASS_BALANCE_ERROR
  else NO_ERROR

/-- The cascade loop of `hymod_kernel::run`:
`for i: runoff = nash_cascade[i].response(runoff, dt)` — each stage consumes
the previous stage's output; returns the final runoff and the list of
post-response reservoirs. -/
def cascade_run (resp : Resp) (dt : ℚ) :
    List LinearReservoir → ℚ → ℚ × List LinearReservoir
  | [], runoff => (runoff, [])
  | r :: rs, runoff =>
      let step := resp r runoff dt
      let rest := cascade_run resp dt rs step.1
      (rest.1, step.2 :: rest.2)

/-- Everything `hymod_kernel::run` computes before the final `mass_check`
call: the local (by-value) state copy after `input_flux` was added — the
very state object later handed to `mass_check` — the populated `new_state`
and `fluxes`, and the memory after the writes to `new_state.Sr[0..n-1]`. -/
structure StepOutputs where
  incremented : hymod_state
  new_state : hymod_state
  fluxes : hymod_fluxes
  mem : Mem

/-- The nash cascade as initialized at the top of `hymod_kernel::run`:
reservoir `i` is constructed from
`(state.Sr[i], params.max_storage, params.Kq, 86400.0)`. -/
def cascade0 (params : hymod_params) (state : hymod_state) (mem : Mem) :
    List LinearReservoir :=
  (List.range params.n).map fun i =>
    { storage := mem (state.Sr + i), max_storage := params.max_storage,
      K := params.Kq, t := 86400 }

/-- The groundwater reservoir as initialized in `hymod_kernel::run`:
constructed from
`(state.groundwater_storage, params.max_storage, params.Ks, 86400.0)`. -/
def gw0 (params : hymod_params) (state : hymod_state) : LinearReservoir :=
  { storage := state.groundwater_storage, max_storage := params.max_storage,
    K := params.Ks, t := 86400 }

/-- The body of `hymod_kernel::run` up to and including the `new_state`
updates (source lines 95–148), parametric in the opaque reservoir response
`resp` and the `std::pow` model `rpow`.  `new_state0` is the caller's output
state object (its `Sr` gives the output buffer address; its other fields are
the stale prior contents, which the source never reads), `fluxes0` the stale
prior fluxes object (likewise never read). -/
def run_pre (resp : Resp) (rpow : ℚ → ℚ → ℚ) (dt : ℚ)
    (params : hymod_params) (state : hymod_state) (new_state0 : hymod_state)
    (fluxes0 : hymod_fluxes) (mem : Mem) (input_flux : ℚ)
    (et_params : Unit) : StepOutputs :=
  -- initalize the nash cascade from state.Sr[i]
  let nash_cascade : List LinearReservoir := cascade0 params state mem
  -- initalize groundwater reservoir
  let groundwater : LinearReservoir := gw0 params state
  -- add flux to the current state (the local by-value copy)
  let state := { state with storage := state.storage + input_flux }
  -- calculate fs, runoff and slow
  let fs : ℚ := 1 - rpow (1 - state.storage / params.max_storage) params.b
  let runoff : ℚ := fs * params.a
  let slow : ℚ := fs * (1 - params.a)
  let soil_m : ℚ := state.storage - fs
  -- calculate et
  let et : ℚ := calc_et soil_m et_params
  -- get the slow flow output for this time
  let gw_step := resp groundwater slow dt
  let slow_flow : ℚ := gw_step.1
  let groundwater := gw_step.2
  -- route runoff through the cascade
  let casc := cascade_run resp dt nash_cascade runoff
  let runoff := casc.1
  let nash_cascade := casc.2
  -- record all fluxs
  let fluxes : hymod_fluxes :=
    { slow_flow := slow_flow, runnoff := runoff, et_loss := et }
  -- update new state
  let new_state : hymod_state :=
    { storage := soil_m - et,
      groundwater_storage := groundwater.get_storage,
      Sr := new_state0.Sr }
  let mem := writeList mem new_state.Sr (nash_cascade.map LinearReservoir.get_storage)
  { incremented := state, new_state := new_state, fluxes := fluxes, mem := mem }

/-- `hymod_kernel::run`: the step body followed by
`return mass_check(params, state, input_flux, new_state, fluxes)`, where
`state` is the local, already-incremented copy.  Returns the populated
outputs together with the status code. -/
def run (resp : Resp) (rpow : ℚ → ℚ → ℚ) (dt : ℚ)
    (params : hymod_params) (state : hymod_state) (new_state0 : hymod_state)
    (fluxes0 : hymod_fluxes) (mem : Mem) (input_flux : ℚ)
    (et_params : Unit) : StepOutputs × ℤ :=
  let outs := run_pre resp rpow dt params state new_state0 fluxes0 mem
    input_flux et_params
  (outs, mass_check params outs.incremented input_flux outs.new_state
    outs.fluxes outs.mem)

/-! Helper lemmas about the embedding. -/

/-- Pointwise characterization of `writeList`: an address inside the written
range reads the corresponding list element, any other address reads the
original memory. -/
theorem writeList_apply (vs : List ℚ) (mem : Mem) (addr x : ℕ) :
    writeList mem addr vs x =
      if addr ≤ x ∧ x < addr + vs.length then vs.getD (x - addr) 0
      else mem x := by
  induction vs generalizing mem addr with
  | nil =>
    rw [writeList, if_neg (by simp)]
  | cons v tl ih =>
    rw [writeList, ih]
    simp only [List.length_cons]
    by_cases hx : x = addr
    · subst hx
      rw [if_neg (by omega),
        if_pos (show x ≤ x ∧ x < x + (tl.length + 1) by omega)]
      simp
    · by_cases h : addr + 1 ≤ x ∧ x < addr + 1 + tl.length
      · rw [if_pos h,
          if_pos (show addr ≤ x ∧ x < addr + (tl.length + 1) by omega)]
        have hk : x - addr = (x - (addr + 1)) + 1 := by omega
        rw [hk]
        simp [List.getD_cons_succ]
      · rw [if_neg h,
          if_neg (show ¬ (addr ≤ x ∧ x < addr + (tl.length + 1)) by omega)]
        simp [hx]

/-- The final runoff of the cascade loop is the left fold of the response
outflows over the reservoir list: a strict sequential pipeline. -/
theorem cascade_run_fst (resp : Resp) (dt : ℚ) (rs : List LinearReservoir)
    (q : ℚ) :
    (cascade_run resp dt rs q).1 = rs.foldl (fun w r => (resp r w dt).1) q := by
  induction rs generalizing q with
  | nil => rfl
  | cons r tl ih => simp [cascade_run, ih]

/-- The cascade loop returns one updated reservoir per input reservoir. -/
theorem cascade_run_length (resp : Resp) (dt : ℚ) (rs : List LinearReservoir)
    (q : ℚ) :
    (cascade_run resp dt rs q).2.length = rs.length := by
  induction rs generalizing q with
  | nil => rfl
  | cons r tl ih => simp [cascade_run, ih]

/-- Sums over `List.range` agree when the summands agree below `n`. -/
theorem range_map_sum_congr {n : ℕ} {f g : ℕ → ℚ}
    (h : ∀ i, i < n → f i = g i) :
    ((List.range n).map f).sum = ((List.range n).map g).sum := by
  have he : (List.range n).map f = (List.range n).map g :=
    List.map_congr_left fun i hi => h i (List.mem_range.mp hi)
  rw [he]

/-- Unfolding: the local state copy handed to `mass_check` is the input
state with `input_flux` added to its `storage`. -/
theorem run_pre_incremented (resp : Resp) (rpow : ℚ → ℚ → ℚ) (dt : ℚ)
    (params : hymod_params) (state new_state0 : hymod_state)
    (fluxes0 : hymod_fluxes) (mem : Mem) (input_flux : ℚ) (u : Unit) :
    (run_pre resp rpow dt params state new_state0 fluxes0 mem input_flux
        u).incremented
      = { state with storage := state.storage + input_flux } := rfl

/-- Unfolding: the fluxes produced by one step. -/
theorem run_pre_fluxes (resp : Resp) (rpow : ℚ → ℚ → ℚ) (dt : ℚ)
    (params : hymod_params) (state new_state0 : hymod_state)
    (fluxes0 : hymod_fluxes) (mem : Mem) (input_flux : ℚ) (u : Unit) :
    (run_pre resp rpow dt params state new_state0 fluxes0 mem input_flux
        u).fluxes
      = { slow_flow :=
            (resp (gw0 params state)
              ((1 - rpow (1 - (state.storage + input_flux) / params.max_storage)
                  params.b) * (1 - params.a)) dt).1,
          runnoff :=
            (cascade_run resp dt (cascade0 params state mem)
              ((1 - rpow (1 - (state.storage + input_flux) / params.max_storage)
                  params.b) * params.a)).1,
          et_loss :=
            calc_et ((state.storage + input_flux)
              - (1 - rpow (1 - (state.storage + input_flux) / params.max_storage)
                  params.b)) u } := rfl

/-- Unfolding: the new state produced by one step. -/
theorem run_pre_new_state (resp : Resp) (rpow : ℚ → ℚ → ℚ) (dt : ℚ)
    (params : hymod_params) (state new_state0 : hymod_state)
    (fluxes0 : hymod_fluxes) (mem : Mem) (input_flux : ℚ) (u : Unit) :
    (run_pre resp rpow dt params state new_state0 fluxes0 mem input_flux
        u).new_state
      = { storage :=
            ((state.storage + input_flux)
              - (1 - rpow (1 - (state.storage + input_flux) / params.max_storage)
                  params.b))
            - calc_et ((state.storage + input_flux)
              - (1 - rpow (1 - (state.storage + input_flux) / params.max_storage)
                  params.b)) u,
          groundwater_storage :=
            (resp (gw0 params state)
              ((1 - rpow (1 - (state.storage + input_flux) / params.max_storage)
                  params.b) * (1 - params.a)) dt).2.get_storage,
          Sr := new_state0.Sr } := rfl

/-- Unfolding: the memory after one step is the input memory with the
post-response cascade storages written at `new_state0.Sr`. -/
theorem run_pre_mem (resp : Resp) (rpow : ℚ → ℚ → ℚ) (dt : ℚ)
    (params : hymod_params) (state new_state0 : hymod_state)
    (fluxes0 : hymod_fluxes) (mem : Mem) (input_flux : ℚ) (u : Unit) :
    (run_pre resp rpow dt params state new_state0 fluxes0 mem input_flux
        u).mem
      = writeList mem new_state0.Sr
          ((cascade_run resp dt (cascade0 params state mem)
              ((1 - rpow (1 - (state.storage + input_flux) / params.max_storage)
                  params.b) * params.a)).2.map
            LinearReservoir.get_storage) := rfl

/-- Unfolding: `run` returns the step outputs unchanged together with the
`mass_check` status computed from them. -/
theorem run_eq (resp : Resp) (rpow : ℚ → ℚ → ℚ) (dt : ℚ)
    (params : hymod_params) (state new_state0 : hymod_state)
    (fluxes0 : hymod_fluxes) (mem : Mem) (input_flux : ℚ) (u : Unit) :
    run resp rpow dt params state new_state0 fluxes0 mem input_flux u
      = (run_pre resp rpow dt params state new_state0 fluxes0 mem input_flux u,
          mass_check params
            (run_pre resp rpow dt params state new_state0 fluxes0 mem
              input_flux u).incremented
            input_flux
            (run_pre resp rpow dt params state new_state0 fluxes0 mem
              input_flux u).new_state
            (run_pre resp rpow dt params state new_state0 fluxes0 mem
              input_flux u).fluxes
            (run_pre resp rpow dt params state new_state0 fluxes0 mem
              input_flux u).mem) := rfl

/-- The length of the written storage list is `params.n`. -/
theorem cascade_values_length (resp : Resp) (rpow : ℚ → ℚ → ℚ) (dt : ℚ)
    (params : hymod_params) (state : hymod_state) (mem : Mem) (q : ℚ) :
    ((cascade_run resp dt (cascade0 params state mem) q).2.map
        LinearReservoir.get_storage).length = params.n := by
  rw [List.length_map, cascade_run_length, cascade0, List.length_map,
    List.length_range]

/-- Frame property of the step: any address outside the output buffer
`[new_state0.Sr, new_state0.Sr + params.n)` is untouched. -/
theorem run_pre_mem_frame (resp : Resp) (rpow : ℚ → ℚ → ℚ) (dt : ℚ)
    (params : hymod_params) (state new_state0 : hymod_state)
    (fluxes0 : hymod_fluxes) (mem : Mem) (input_flux : ℚ) (u : Unit)
    (x : ℕ) (hx : x < new_state0.Sr ∨ new_state0.Sr + params.n ≤ x) :
    (run_pre resp rpow dt params state new_state0 fluxes0 mem input_flux
        u).mem x = mem x := by
  rw [run_pre_mem, writeList_apply, cascade_values_length resp rpow,
    if_neg (by omega)]

/-- Reading the output buffer after the step returns the post-response
cascade storages, in order. -/
theorem run_pre_mem_inside (resp : Resp) (rpow : ℚ → ℚ → ℚ) (dt : ℚ)
    (params : hymod_params) (state new_state0 : hymod_state)
    (fluxes0 : hymod_fluxes) (mem : Mem) (input_flux : ℚ) (u : Unit)
    (i : ℕ) (hi : i < params.n) :
    (run_pre resp rpow dt params state new_state0 fluxes0 mem input_flux
        u).mem (new_state0.Sr + i)
      = ((cascade_run resp dt (cascade0 params state mem)
          ((1 - rpow (1 - (state.storage + input_flux) / params.max_storage)
              params.b) * params.a)).2.map
          LinearReservoir.get_storage).getD i 0 := by
  rw [run_pre_mem, writeList_apply, cascade_values_length resp rpow,
    if_pos (show new_state0.Sr ≤ new_state0.Sr + i
        ∧ new_state0.Sr + i < new_state0.Sr + params.n by omega),
    Nat.add_sub_cancel_left]

/-- Arithmetic core of the storage-nonnegativity argument: for a natural
exponent `k ≤ M` and `0 ≤ s ≤ M`, Bernoulli's inequality gives
`(1 - s/M)^k ≥ 1 - k·(s/M)`, hence `s - (1 - (1 - s/M)^k) ≥ 0`. -/
theorem soil_nonneg_aux (s M : ℚ) (k : ℕ) (hs : 0 ≤ s) (hkM : (k : ℚ) ≤ M)
    (hMpos : 0 < M) (hbound : s ≤ M) :
    0 ≤ s - (1 - (1 - s / M) ^ k) := by
  have hsM1 : s / M ≤ 1 := by
    rw [div_le_one hMpos]
    exact hbound
  have hsM0 : 0 ≤ s / M := div_nonneg hs (le_of_lt hMpos)
  have hber : 1 + (k : ℚ) * (-(s / M)) ≤ (1 + -(s / M)) ^ k :=
    one_add_mul_le_pow (by linarith) k
  have hmul : (k : ℚ) * (s / M) ≤ M * (s / M) :=
    mul_le_mul_of_nonneg_right hkM hsM0
  have hcancel : M * (s / M) = s := by
    field_simp
  rw [hcancel] at hmul
  have hrw : (1 : ℚ) - s / M = 1 + -(s / M) := by ring
  rw [hrw]
  linarith [hber, hmul]

/-! Concrete instances used by witnesses and counterexamples. -/

/-- A concrete reservoir response used to instantiate the opaque `Resp`
parameter in closed statements: half of the inflow leaves immediately, the
rest is stored. -/
def respW : Resp :=
  fun r q dtv => (q / 2, { r with storage := r.storage + q / 2 })

/-- A concrete `std::pow` model used in closed statements: exact
exponentiation for natural-number exponents (where real `pow` agrees with
the iterated product). -/
def powNat : ℚ → ℚ → ℚ := fun x y => x ^ y.num.toNat

/-- A degenerate `std::pow` model (constantly 0), usable in closed
statements about parts of the kernel that do not depend on `pow`. -/
def pow0 : ℚ → ℚ → ℚ := fun x y => 0

/-- The all-zero memory. -/
def memZ : Mem := fun x => 0

/-- A memory holding `5` at addresses `0` and `1` (a two-slot cascade
buffer based at `0`) and `0` elsewhere. -/
def memA : Mem := fun x => if x < 2 then 5 else 0

/-- Like `memA` at addresses `0` and `1` but different elsewhere (used to
vary the prior contents of the output buffer). -/
def memB : Mem := fun x => if x < 2 then 5 else 7

/-- Concrete parameters with a two-stage cascade. -/
def Pn2 : hymod_params :=
  { max_storage := 100, a := 1, b := 2, Ks := 1 / 10, Kq := 3 / 10, n := 2 }

/-- Concrete parameters with no cascade stage. -/
def Pn0 : hymod_params :=
  { max_storage := 100, a := 3 / 10, b := 2, Ks := 1 / 10, Kq := 3 / 10,
    n := 0 }

/-- A concrete input state whose cascade buffer is based at address `0`. -/
def Sz : hymod_state := { storage := 50, groundwater_storage := 10, Sr := 0 }

/-- A concrete input state with zero storages, buffer based at `0`. -/
def S0z : hymod_state := { storage := 0, groundwater_storage := 0, Sr := 0 }

/-- A concrete output-state object whose buffer is based at address `10`
(disjoint from the input buffers based at `0`). -/
def NSz : hymod_state := { storage := 0, groundwater_storage := 0, Sr := 10 }

/-- Another output-state object with the same buffer address `10` but
different stale field contents. -/
def NSz' : hymod_state :=
  { storage := 99, groundwater_storage := 99, Sr := 10 }

/-- A zeroed prior fluxes object. -/
def F0 : hymod_fluxes := { slow_flow := 0, runnoff := 0, et_loss := 0 }

/-- A nonzero prior fluxes object (stale contents). -/
def F1 : hymod_fluxes := { slow_flow := 1, runnoff := 2, et_loss := 3 }

/-- Parameters satisfying all the spec's constraints (`max_storage > 0`,
`a ∈ [0,1]`, `b > 0`) but with a small `max_storage`, under which the soil
storage can go negative. -/
def P9 : hymod_params :=
  { max_storage := 1 / 10, a := 0, b := 2, Ks := 1 / 10, Kq := 3 / 10,
    n := 0 }

/-- Parameters with `max_storage ≥ b` (and `≥ 1`), under which the soil
storage stays nonnegative. -/
def P9w : hymod_params :=
  { max_storage := 2, a := 1 / 2, b := 2, Ks := 1 / 10, Kq := 3 / 10,
    n := 0 }

/-- A concrete state with storage `1/2`. -/
def S9w : hymod_state :=
  { storage := 1 / 2, groundwater_storage := 0, Sr := 0 }

/-! The claims. -/

/-- C1: `mass_check` returns `MASS_BALANCE_ERROR` if and only if the
accumulated initial mass exceeds the accumulated final mass by more than
`1e-6`, and `NO_ERROR` otherwise (so a final mass larger than the initial
one — water created — is never flagged); and `run` returns the result of
`mass_check` applied to its step outputs. -/
theorem claim_C1 (params : hymod_params) (current_state : hymod_state)
    (input_flux : ℚ) (next_state : hymod_state) (fl : hymod_fluxes)
    (mem : Mem) :
    (mass_check params current_state input_flux next_state fl mem
        = MASS_BALANCE_ERROR
      ↔ inital_mass params current_state input_flux mem
          - final_mass params next_state fl mem > 1 / 1000000)
    ∧ (mass_check params current_state input_flux next_state fl mem
        = NO_ERROR
      ↔ ¬ (inital_mass params current_state input_flux mem
          - final_mass params next_state fl mem > 1 / 1000000))
    ∧ (∀ (resp : Resp) (rpow : ℚ → ℚ → ℚ) (dt : ℚ)
        (state ns0 : hymod_state) (f0 : hymod_fluxes) (m : Mem) (ifx : ℚ)
        (u : Unit),
        (run resp rpow dt params state ns0 f0 m ifx u).2
          = mass_check params
              (run_pre resp rpow dt params state ns0 f0 m ifx u).incremented
              ifx
              (run_pre resp rpow dt params state ns0 f0 m ifx u).new_state
              (run_pre resp rpow dt params state ns0 f0 m ifx u).fluxes
              (run_pre resp rpow dt params state ns0 f0 m ifx u).mem) := by
  rw [mass_check]
  by_cases h : inital_mass params current_state input_flux mem
      - final_mass params next_state fl mem > 1 / 1000000
  · rw [if_pos h]
    exact ⟨⟨fun _ => h, fun _ => rfl⟩,
      ⟨fun he => absurd he (by decide), fun hn => absurd h hn⟩,
      fun _ _ _ _ _ _ _ _ _ => rfl⟩
  · rw [if_neg h]
    exact ⟨⟨fun he => absurd he (by decide), fun hgt => absurd hgt h⟩,
      ⟨fun _ => h, fun _ => rfl⟩,
      fun _ _ _ _ _ _ _ _ _ => rfl⟩

/-- C2: `run` hands `mass_check` the local state copy whose `storage`
already includes `input_flux`, and `mass_check` adds `input_flux` once
more, so — when the two cascade buffers are disjoint — the initial mass
used in the check equals pre-call storage + groundwater storage + the sum
of the cascade storages + `2 · input_flux`. -/
theorem claim_C2 (resp : Resp) (rpow : ℚ → ℚ → ℚ) (dt : ℚ)
    (params : hymod_params) (state ns0 : hymod_state) (f0 : hymod_fluxes)
    (mem : Mem) (ifx : ℚ) (u : Unit)
    (hdisj : ∀ i, i < params.n → ∀ j, j < params.n →
      state.Sr + i ≠ ns0.Sr + j) :
    (run_pre resp rpow dt params state ns0 f0 mem ifx u).incremented
        = { state with storage := state.storage + ifx }
    ∧ (run resp rpow dt params state ns0 f0 mem ifx u).2
        = mass_check params { state with storage := state.storage + ifx } ifx
            (run_pre resp rpow dt params state ns0 f0 mem ifx u).new_state
            (run_pre resp rpow dt params state ns0 f0 mem ifx u).fluxes
            (run_pre resp rpow dt params state ns0 f0 mem ifx u).mem
    ∧ inital_mass params
          (run_pre resp rpow dt params state ns0 f0 mem ifx u).incremented
          ifx (run_pre resp rpow dt params state ns0 f0 mem ifx u).mem
        = state.storage + state.groundwater_storage
            + (((List.range params.n).map fun i => mem (state.Sr + i)).sum)
            + 2 * ifx := by
  refine ⟨rfl, rfl, ?_⟩
  have hmm : ∀ i, i < params.n →
      (run_pre resp rpow dt params state ns0 f0 mem ifx u).mem
          (state.Sr + i)
        = mem (state.Sr + i) := by
    intro i hi
    apply run_pre_mem_frame
    by_contra hc
    push_neg at hc
    exact hdisj i hi (state.Sr + i - ns0.Sr) (by omega) (by omega)
  show state.storage + ifx + state.groundwater_storage
      + (((List.range params.n).map fun i =>
          (run_pre resp rpow dt params state ns0 f0 mem ifx u).mem
            (state.Sr + i)).sum)
      + ifx
    = state.storage + state.groundwater_storage
      + (((List.range params.n).map fun i => mem (state.Sr + i)).sum)
      + 2 * ifx
  rw [range_map_sum_congr hmm]
  ring

/-- Witness for C2 at concrete inputs: parameters with a two-stage cascade,
input buffer at address 0, output buffer at address 10, `input_flux = 10`;
the initial mass seen by the check is `50 + 10 + (5 + 5) + 2·10 = 90`. -/
theorem claim_C2_witness :
    inital_mass Pn2
        (run_pre respW powNat 1 Pn2 Sz NSz F0 memA 10 ()).incremented 10
        (run_pre respW powNat 1 Pn2 Sz NSz F0 memA 10 ()).mem
      = 90 :=
  ((claim_C2 respW powNat 1 Pn2 Sz NSz F0 memA 10 ()
    (by decide)).2.2).trans
    (by norm_num [Sz, Pn2, memA, show List.range 2 = [0, 1] from rfl])

/-- C3: after `input_flux` is added to the by-value state's storage, the
kernel computes exactly `fs = 1 − (1 − storage/max_storage)^b`, feeds
`runoff_in = fs·a` to the cascade and `slow_in = fs·(1−a)` to the
groundwater reservoir, and sets the soil moisture to `storage − fs` (the
fraction-derived `fs` subtracted directly as a depth).  No hypothesis
bounds `storage` against `max_storage`: the formulas hold unconditionally,
i.e. no clamping is performed. -/
theorem claim_C3 (resp : Resp) (rpow : ℚ → ℚ → ℚ) (dt : ℚ)
    (params : hymod_params) (state ns0 : hymod_state) (f0 : hymod_fluxes)
    (mem : Mem) (ifx : ℚ) (u : Unit) :
    (run resp rpow dt params state ns0 f0 mem ifx u).1.fluxes.runnoff
        = (cascade_run resp dt (cascade0 params state mem)
            ((1 - rpow (1 - (state.storage + ifx) / params.max_storage)
                params.b) * params.a)).1
    ∧ (run resp rpow dt params state ns0 f0 mem ifx u).1.fluxes.slow_flow
        = (resp (gw0 params state)
            ((1 - rpow (1 - (state.storage + ifx) / params.max_storage)
                params.b) * (1 - params.a)) dt).1
    ∧ (run resp rpow dt params state ns0 f0 mem ifx u).1.new_state.storage
        = ((state.storage + ifx)
            - (1 - rpow (1 - (state.storage + ifx) / params.max_storage)
                params.b))
          - calc_et ((state.storage + ifx)
              - (1 - rpow (1 - (state.storage + ifx) / params.max_storage)
                  params.b)) u :=
  ⟨rfl, rfl, rfl⟩

/-- C4: for `n ≥ 1` the runoff is the strict sequential composition of the
cascade stages applied in index order to `runoff_in = fs·a` (stage `i`
consumes stage `i−1`'s output: a left fold over the reservoir list), the
output buffer receives the post-response storage of reservoir `i` at slot
`i`; and sequential composition genuinely differs from a single independent
application of a stage to `runoff_in` (shown at a concrete two-stage
instance, where the pipeline halves twice, `1/4 ≠ 1/2`). -/
theorem claim_C4 (resp : Resp) (rpow : ℚ → ℚ → ℚ) (dt : ℚ)
    (params : hymod_params) (state ns0 : hymod_state) (f0 : hymod_fluxes)
    (mem : Mem) (ifx : ℚ) (u : Unit) (hn : 1 ≤ params.n) :
    (run resp rpow dt params state ns0 f0 mem ifx u).1.fluxes.runnoff
        = (cascade0 params state mem).foldl (fun w r => (resp r w dt).1)
            ((1 - rpow (1 - (state.storage + ifx) / params.max_storage)
                params.b) * params.a)
    ∧ (∀ i, i < params.n →
        (run resp rpow dt params state ns0 f0 mem ifx u).1.mem (ns0.Sr + i)
          = ((cascade_run resp dt (cascade0 params state mem)
              ((1 - rpow (1 - (state.storage + ifx) / params.max_storage)
                  params.b) * params.a)).2.map
              LinearReservoir.get_storage).getD i 0)
    ∧ (run respW pow0 1 Pn2 S0z NSz F0 memZ 0 ()).1.fluxes.runnoff
        ≠ (respW
            { storage := memZ (S0z.Sr + 1), max_storage := Pn2.max_storage,
              K := Pn2.Kq, t := 86400 }
            ((1 - pow0 (1 - (S0z.storage + 0) / Pn2.max_storage) Pn2.b)
              * Pn2.a) 1).1 := by
  refine ⟨?_, ?_, ?_⟩
  · show (run_pre resp rpow dt params state ns0 f0 mem ifx u).fluxes.runnoff
        = _
    rw [run_pre_fluxes]
    exact cascade_run_fst resp dt _ _
  · intro i hi
    exact run_pre_mem_inside resp rpow dt params state ns0 f0 mem ifx u i hi
  · show (run_pre respW pow0 1 Pn2 S0z NSz F0 memZ 0 ()).fluxes.runnoff ≠ _
    rw [run_pre_fluxes]
    show (cascade_run respW 1 (cascade0 Pn2 S0z memZ)
        ((1 - pow0 (1 - (S0z.storage + 0) / Pn2.max_storage) Pn2.b)
          * Pn2.a)).1 ≠ _
    norm_num [cascade_run, cascade0, respW, pow0, Pn2, S0z, memZ,
      show List.range 2 = [0, 1] from rfl]

/-- Witness for C4: the two-stage concrete instance satisfies `1 ≤ n`, and
its runoff equals the left-fold sequential composition. -/
theorem claim_C4_witness :
    (run respW pow0 1 Pn2 S0z NSz F0 memZ 0 ()).1.fluxes.runnoff
      = (cascade0 Pn2 S0z memZ).foldl (fun w r => (respW r w 1).1)
          ((1 - pow0 (1 - (S0z.storage + 0) / Pn2.max_storage) Pn2.b)
            * Pn2.a) :=
  (claim_C4 respW pow0 1 Pn2 S0z NSz F0 memZ 0 () (by decide)).1

/-- C5: `run` always returns a status from the two-element enumeration
`{NO_ERROR, MASS_BALANCE_ERROR}`, and its outputs are exactly the step
outputs computed before the check — identical whether or not the check
fails (compute-then-validate, no rollback). -/
theorem claim_C5 (resp : Resp) (rpow : ℚ → ℚ → ℚ) (dt : ℚ)
    (params : hymod_params) (state ns0 : hymod_state) (f0 : hymod_fluxes)
    (mem : Mem) (ifx : ℚ) (u : Unit) :
    ((run resp rpow dt params state ns0 f0 mem ifx u).2 = NO_ERROR
      ∨ (run resp rpow dt params state ns0 f0 mem ifx u).2
          = MASS_BALANCE_ERROR)
    ∧ (run resp rpow dt params state ns0 f0 mem ifx u).1
        = run_pre resp rpow dt params state ns0 f0 mem ifx u := by
  refine ⟨?_, rfl⟩
  show mass_check params
        (run_pre resp rpow dt params state ns0 f0 mem ifx u).incremented ifx
        (run_pre resp rpow dt params state ns0 f0 mem ifx u).new_state
        (run_pre resp rpow dt params state ns0 f0 mem ifx u).fluxes
        (run_pre resp rpow dt params state ns0 f0 mem ifx u).mem = NO_ERROR
    ∨ mass_check params
        (run_pre resp rpow dt params state ns0 f0 mem ifx u).incremented ifx
        (run_pre resp rpow dt params state ns0 f0 mem ifx u).new_state
        (run_pre resp rpow dt params state ns0 f0 mem ifx u).fluxes
        (run_pre resp rpow dt params state ns0 f0 mem ifx u).mem
      = MASS_BALANCE_ERROR
  rw [mass_check]
  split
  · exact Or.inr rfl
  · exact Or.inl rfl

/-- C6: the kernel receives `state` by value and never writes through its
`Sr` pointer: the only memory it writes is the output buffer
`[new_state0.Sr, new_state0.Sr + n)`, so with disjoint buffers (the
precondition) every element of the caller's input buffer is unchanged
after the call.  (The caller's `storage` and `groundwater_storage` fields
are value copies and are untouched by construction in this functional
embedding.) -/
theorem claim_C6 (resp : Resp) (rpow : ℚ → ℚ → ℚ) (dt : ℚ)
    (params : hymod_params) (state ns0 : hymod_state) (f0 : hymod_fluxes)
    (mem : Mem) (ifx : ℚ) (u : Unit)
    (hdisj : ∀ i, i < params.n → ∀ j, j < params.n →
      state.Sr + i ≠ ns0.Sr + j) :
    (∀ x, (x < ns0.Sr ∨ ns0.Sr + params.n ≤ x) →
      (run resp rpow dt params state ns0 f0 mem ifx u).1.mem x = mem x)
    ∧ ∀ j, j < params.n →
        (run resp rpow dt params state ns0 f0 mem ifx u).1.mem
            (state.Sr + j)
          = mem (state.Sr + j) := by
  constructor
  · intro x hx
    exact run_pre_mem_frame resp rpow dt params state ns0 f0 mem ifx u x hx
  · intro j hj
    have hx : state.Sr + j < ns0.Sr ∨ ns0.Sr + params.n ≤ state.Sr + j := by
      by_contra hc
      push_neg at hc
      exact hdisj j hj (state.Sr + j - ns0.Sr) (by omega) (by omega)
    exact run_pre_mem_frame resp rpow dt params state ns0 f0 mem ifx u
      (state.Sr + j) hx

/-- Witness for C6: with the input buffer at `0` and the output buffer at
`10` (disjoint), input slot `0` still holds its original value after the
call. -/
theorem claim_C6_witness :
    (run respW powNat 1 Pn2 Sz NSz F0 memA 10 ()).1.mem (Sz.Sr + 0)
      = memA (Sz.Sr + 0) :=
  (claim_C6 respW powNat 1 Pn2 Sz NSz F0 memA 10 () (by decide)).2 0
    (by decide)

/-- C7: with `params.n = 0` the cascade is bypassed entirely — the runoff
flux is `runoff_in = fs·a` unchanged, and no memory (in particular no
element of any output buffer) is written. -/
theorem claim_C7 (resp : Resp) (rpow : ℚ → ℚ → ℚ) (dt : ℚ)
    (params : hymod_params) (state ns0 : hymod_state) (f0 : hymod_fluxes)
    (mem : Mem) (ifx : ℚ) (u : Unit) (hn : params.n = 0) :
    (run resp rpow dt params state ns0 f0 mem ifx u).1.fluxes.runnoff
        = (1 - rpow (1 - (state.storage + ifx) / params.max_storage)
            params.b) * params.a
    ∧ (run resp rpow dt params state ns0 f0 mem ifx u).1.mem = mem := by
  have hc : cascade0 params state mem = [] := by
    rw [cascade0, hn]
    rfl
  constructor
  · show (run_pre resp rpow dt params state ns0 f0 mem ifx u).fluxes.runnoff
        = _
    rw [run_pre_fluxes]
    show (cascade_run resp dt (cascade0 params state mem)
        ((1 - rpow (1 - (state.storage + ifx) / params.max_storage)
            params.b) * params.a)).1 = _
    rw [hc]
    rfl
  · show (run_pre resp rpow dt params state ns0 f0 mem ifx u).mem = mem
    rw [run_pre_mem, hc]
    rfl

/-- Witness for C7 at a concrete zero-cascade instance. -/
theorem claim_C7_witness :
    (run respW powNat 1 Pn0 Sz NSz F0 memA 10 ()).1.fluxes.runnoff
        = (1 - powNat (1 - (Sz.storage + 10) / Pn0.max_storage) Pn0.b)
            * Pn0.a
    ∧ (run respW powNat 1 Pn0 Sz NSz F0 memA 10 ()).1.mem = memA :=
  claim_C7 respW powNat 1 Pn0 Sz NSz F0 memA 10 () rfl

/-- C8: the default ET stub returns `0` for every input, so every call of
`run` (which invokes the stub directly) produces `et_loss = 0` exactly and
`new_state.storage = soil_m` — the ET subtraction removes nothing. -/
theorem claim_C8 :
    (∀ (soil_m : ℚ) (p : Unit), calc_et soil_m p = 0)
    ∧ ∀ (resp : Resp) (rpow : ℚ → ℚ → ℚ) (dt : ℚ)
        (params : hymod_params) (state ns0 : hymod_state)
        (f0 : hymod_fluxes) (mem : Mem) (ifx : ℚ) (u : Unit),
        (run resp rpow dt params state ns0 f0 mem ifx u).1.fluxes.et_loss
            = 0
        ∧ (run resp rpow dt params state ns0 f0 mem ifx u).1.new_state.storage
            = (state.storage + ifx)
              - (1 - rpow (1 - (state.storage + ifx) / params.max_storage)
                  params.b) := by
  refine ⟨fun _ _ => rfl,
    fun resp rpow dt params state ns0 f0 mem ifx u => ⟨rfl, ?_⟩⟩
  show ((state.storage + ifx)
      - (1 - rpow (1 - (state.storage + ifx) / params.max_storage) params.b))
      - calc_et ((state.storage + ifx)
          - (1 - rpow (1 - (state.storage + ifx) / params.max_storage)
              params.b)) u
    = (state.storage + ifx)
      - (1 - rpow (1 - (state.storage + ifx) / params.max_storage) params.b)
  rw [calc_et, sub_zero]

/-- C9 counterexample: with `max_storage = 1/10`, `a = 0`, `b = 2` (so all
of the claim's side conditions hold — `max_storage > 0`, `a ∈ [0,1]`,
`b > 0`, `0 ≤ storage`, `input_flux = 1/20 ≥ 0`,
`storage + input_flux = 1/20 ≤ max_storage` — and the pow model computes
the exact square, as real `pow` does at exponent 2), the produced storage is
`1/20 − (1 − (1 − 1/2)²) = −7/10 < 0`: the claimed invariant fails. -/
theorem claim_C9_counterexample :
    0 ≤ S0z.storage
    ∧ S0z.storage + 1 / 20 ≤ P9.max_storage
    ∧ (0 : ℚ) ≤ 1 / 20
    ∧ 0 < P9.max_storage
    ∧ 0 ≤ P9.a ∧ P9.a ≤ 1
    ∧ 0 < P9.b
    ∧ (∀ x : ℚ, powNat x P9.b = x ^ 2)
    ∧ (run respW powNat 1 P9 S0z NSz F0 memZ (1 / 20) ()).1.new_state.storage
        < 0 := by
  refine ⟨le_refl 0, by norm_num [S0z, P9], by norm_num,
    by norm_num [P9], le_refl 0, by norm_num [P9], by norm_num [P9],
    fun x => rfl, ?_⟩
  show ((S0z.storage + 1 / 20)
      - (1 - powNat (1 - (S0z.storage + 1 / 20) / P9.max_storage) P9.b))
      - calc_et ((S0z.storage + 1 / 20)
          - (1 - powNat (1 - (S0z.storage + 1 / 20) / P9.max_storage)
              P9.b)) () < 0
  rw [calc_et, sub_zero]
  norm_num [powNat, P9, S0z, show Int.toNat 2 = 2 from rfl]

/-- C9 amended: the invariant `0 ≤ storage` is preserved under the claim's
hypotheses provided additionally that the exponent `b` is a positive
integer `k` computed exactly by the pow model and that
`max_storage ≥ b`; the counterexample shows the extra lower bound on
`max_storage` is needed. -/
theorem claim_C9_amended (resp : Resp) (rpow : ℚ → ℚ → ℚ) (dt : ℚ)
    (params : hymod_params) (state ns0 : hymod_state) (f0 : hymod_fluxes)
    (mem : Mem) (ifx : ℚ) (u : Unit) (k : ℕ)
    (hb : params.b = (k : ℚ)) (hk : 1 ≤ k)
    (hpow : ∀ x : ℚ, rpow x params.b = x ^ k)
    (hkM : (k : ℚ) ≤ params.max_storage)
    (hs0 : 0 ≤ state.storage) (hifx : 0 ≤ ifx)
    (hbound : state.storage + ifx ≤ params.max_storage)
    (hMpos : 0 < params.max_storage)
    (ha0 : 0 ≤ params.a) (ha1 : params.a ≤ 1) :
    0 ≤ (run resp rpow dt params state ns0 f0 mem ifx
        u).1.new_state.storage := by
  show 0 ≤ ((state.storage + ifx)
      - (1 - rpow (1 - (state.storage + ifx) / params.max_storage) params.b))
      - calc_et ((state.storage + ifx)
          - (1 - rpow (1 - (state.storage + ifx) / params.max_storage)
              params.b)) u
  rw [calc_et, sub_zero, hpow]
  exact soil_nonneg_aux (state.storage + ifx) params.max_storage k
    (by linarith) hkM hMpos hbound

/-- Witness for the amended C9: `max_storage = 2 ≥ b = 2`, storage `1/2`,
inflow `1/4`: the new storage is nonnegative. -/
theorem claim_C9_witness :
    0 ≤ (run respW powNat 1 P9w S9w NSz F0 memZ (1 / 4)
        ()).1.new_state.storage :=
  claim_C9_amended respW powNat 1 P9w S9w NSz F0 memZ (1 / 4) () 2
    (by norm_num [P9w]) (by norm_num) (fun x => rfl) (by norm_num [P9w])
    (by norm_num [S9w]) (by norm_num) (by norm_num [S9w, P9w])
    (by norm_num [P9w]) (by norm_num [P9w]) (by norm_num [P9w])

/-- C10: `run` is a pure deterministic function of
`(dt, params, state, input_flux)` and the input-buffer contents: two calls
whose memories agree on the input buffer — but with arbitrary stale
contents in the output state object, the prior fluxes object and the rest
of memory, including the output buffer — produce identical `new_state`
fields, identical fluxes, identical status codes, and identical contents
of the output buffer. -/
theorem claim_C10 (resp : Resp) (rpow : ℚ → ℚ → ℚ) (dt : ℚ)
    (params : hymod_params) (state ns1 ns2 : hymod_state)
    (f01 f02 : hymod_fluxes) (mem1 mem2 : Mem) (ifx : ℚ) (u : Unit)
    (hSr : ns1.Sr = ns2.Sr)
    (hagree : ∀ i, i < params.n →
      mem1 (state.Sr + i) = mem2 (state.Sr + i)) :
    (run resp rpow dt params state ns1 f01 mem1 ifx u).1.new_state
        = (run resp rpow dt params state ns2 f02 mem2 ifx u).1.new_state
    ∧ (run resp rpow dt params state ns1 f01 mem1 ifx u).1.fluxes
        = (run resp rpow dt params state ns2 f02 mem2 ifx u).1.fluxes
    ∧ (run resp rpow dt params state ns1 f01 mem1 ifx u).2
        = (run resp rpow dt params state ns2 f02 mem2 ifx u).2
    ∧ ∀ i, i < params.n →
        (run resp rpow dt params state ns1 f01 mem1 ifx u).1.mem
            (ns1.Sr + i)
          = (run resp rpow dt params state ns2 f02 mem2 ifx u).1.mem
              (ns2.Sr + i) := by
  have hc : cascade0 params state mem1 = cascade0 params state mem2 := by
    rw [cascade0, cascade0]
    exact List.map_congr_left fun i hi => by
      rw [hagree i (List.mem_range.mp hi)]
  have hns : (run_pre resp rpow dt params state ns1 f01 mem1 ifx u).new_state
      = (run_pre resp rpow dt params state ns2 f02 mem2 ifx u).new_state := by
    rw [run_pre_new_state, run_pre_new_state, hSr]
  have hfx : (run_pre resp rpow dt params state ns1 f01 mem1 ifx u).fluxes
      = (run_pre resp rpow dt params state ns2 f02 mem2 ifx u).fluxes := by
    rw [run_pre_fluxes, run_pre_fluxes, hc]
  have hout : ∀ i, i < params.n →
      (run_pre resp rpow dt params state ns1 f01 mem1 ifx u).mem
          (ns1.Sr + i)
        = (run_pre resp rpow dt params state ns2 f02 mem2 ifx u).mem
            (ns2.Sr + i) := by
    intro i hi
    rw [run_pre_mem_inside resp rpow dt params state ns1 f01 mem1 ifx u i hi,
      run_pre_mem_inside resp rpow dt params state ns2 f02 mem2 ifx u i hi,
      hc]
  have hsum1 : ∀ i, i < params.n →
      (run_pre resp rpow dt params state ns1 f01 mem1 ifx u).mem
          (state.Sr + i)
        = (run_pre resp rpow dt params state ns2 f02 mem2 ifx u).mem
            (state.Sr + i) := by
    intro i hi
    rw [run_pre_mem, run_pre_mem, hc, hSr, writeList_apply, writeList_apply]
    split_ifs with hin
    · rfl
    · exact hagree i hi
  have him : inital_mass params
      (run_pre resp rpow dt params state ns1 f01 mem1 ifx u).incremented ifx
      (run_pre resp rpow dt params state ns1 f01 mem1 ifx u).mem
      = inital_mass params
        (run_pre resp rpow dt params state ns2 f02 mem2 ifx u).incremented
        ifx (run_pre resp rpow dt params state ns2 f02 mem2 ifx u).mem := by
    show state.storage + ifx + state.groundwater_storage
        + (((List.range params.n).map fun i =>
            (run_pre resp rpow dt params state ns1 f01 mem1 ifx u).mem
              (state.Sr + i)).sum) + ifx
      = state.storage + ifx + state.groundwater_storage
        + (((List.range params.n).map fun i =>
            (run_pre resp rpow dt params state ns2 f02 mem2 ifx u).mem
              (state.Sr + i)).sum) + ifx
    rw [range_map_sum_congr hsum1]
  have hfm : final_mass params
      (run_pre resp rpow dt params state ns1 f01 mem1 ifx u).new_state
      (run_pre resp rpow dt params state ns1 f01 mem1 ifx u).fluxes
      (run_pre resp rpow dt params state ns1 f01 mem1 ifx u).mem
      = final_mass params
        (run_pre resp rpow dt params state ns2 f02 mem2 ifx u).new_state
        (run_pre resp rpow dt params state ns2 f02 mem2 ifx u).fluxes
        (run_pre resp rpow dt params state ns2 f02 mem2 ifx u).mem := by
    show (run_pre resp rpow dt params state ns1 f01 mem1 ifx
          u).new_state.storage
        + (run_pre resp rpow dt params state ns1 f01 mem1 ifx
            u).new_state.groundwater_storage
        + (((List.range params.n).map fun i =>
            (run_pre resp rpow dt params state ns1 f01 mem1 ifx u).mem
              (ns1.Sr + i)).sum)
        + ((run_pre resp rpow dt params state ns1 f01 mem1 ifx
              u).fluxes.et_loss
            + (run_pre resp rpow dt params state ns1 f01 mem1 ifx
                u).fluxes.runnoff
            + (run_pre resp rpow dt params state ns1 f01 mem1 ifx
                u).fluxes.slow_flow)
      = (run_pre resp rpow dt params state ns2 f02 mem2 ifx
            u).new_state.storage
        + (run_pre resp rpow dt params state ns2 f02 mem2 ifx
            u).new_state.groundwater_storage
        + (((List.range params.n).map fun i =>
            (run_pre resp rpow dt params state ns2 f02 mem2 ifx u).mem
              (ns2.Sr + i)).sum)
        + ((run_pre resp rpow dt params state ns2 f02 mem2 ifx
              u).fluxes.et_loss
            + (run_pre resp rpow dt params state ns2 f02 mem2 ifx
                u).fluxes.runnoff
            + (run_pre resp rpow dt params state ns2 f02 mem2 ifx
                u).fluxes.slow_flow)
    rw [hns, hfx, range_map_sum_congr hout]
  have hst : (run resp rpow dt params state ns1 f01 mem1 ifx u).2
      = (run resp rpow dt params state ns2 f02 mem2 ifx u).2 := by
    show mass_check params
        (run_pre resp rpow dt params state ns1 f01 mem1 ifx u).incremented
        ifx (run_pre resp rpow dt params state ns1 f01 mem1 ifx u).new_state
        (run_pre resp rpow dt params state ns1 f01 mem1 ifx u).fluxes
        (run_pre resp rpow dt params state ns1 f01 mem1 ifx u).mem
      = mass_check params
        (run_pre resp rpow dt params state ns2 f02 mem2 ifx u).incremented
        ifx (run_pre resp rpow dt params state ns2 f02 mem2 ifx u).new_state
        (run_pre resp rpow dt params state ns2 f02 mem2 ifx u).fluxes
        (run_pre resp rpow dt params state ns2 f02 mem2 ifx u).mem
    rw [mass_check, mass_check, him, hfm]
  exact ⟨hns, hfx, hst, hout⟩

/-- Witness for C10: two calls differing only in stale output-object
contents and in memory outside the input buffer return the same status. -/
theorem claim_C10_witness :
    (run respW powNat 1 Pn2 Sz NSz F0 memA 10 ()).2
      = (run respW powNat 1 Pn2 Sz NSz' F1 memB 10 ()).2 :=
  (claim_C10 respW powNat 1 Pn2 Sz NSz NSz' F0 F1 memA memB 10 () rfl
    (by decide)).2.2.1

end Hymod
